import Mathlib

/-!
Verification of the triage/moderation bot core: the resilient HTTP retry
wrapper, the discussion paginator, and the issue triage classifier, shallowly
embedded from the Python sources under `src/agents`.
-/

namespace IssueTriage

/-- The fixed category-to-team registry `CATEGORY_TO_OWNER` from
`src/agents/issue_triage_agent/agent.py`, as an association list in the
source's insertion order. -/
def CATEGORY_TO_OWNER : List (String × String) := [
  ("core-protocol", "technical-committee"),
  ("governance", "governance-committee"),
  ("capability", "maintainers"),
  ("documentation", "maintainers"),
  ("infrastructure", "devops-maintainers"),
  ("maintenance", "devops-maintainers"),
  ("sdk", "devops-maintainers"),
  ("samples-conformance", "maintainers")]

/-- `CATEGORIES = list(CATEGORY_TO_OWNER.keys())` from `agent.py`. -/
def CATEGORIES : List String := CATEGORY_TO_OWNER.map Prod.fst

/-- The static team roster `TEAM_MEMBERS` from
`src/agents/issue_triage_agent/team_members.py`. -/
def TEAM_MEMBERS : List (String × List String) := [
  ("technical-committee",
    ["igrigorik", "aglazer", "amithanda", "maximenajim", "vvemula",
     "lemonmade", "mnaga", "sinhanurag", "ihoosain", "raginpirate",
     "drewolson-google"]),
  ("governance-committee",
    ["igrigorik", "amithanda"]),
  ("maintainers",
    ["richmolj", "westeezy", "jingyli", "DanielFalconGuedes", "mmohades",
     "yanheChen", "alexpark20", "knightlin-shopify"]),
  ("devops-maintainers",
    ["wry-ry", "ptiper", "nearlyforget", "aksbro-gpu", "MitkoDeyanovMitev",
     "damaz91", "carol-w-tech"])]

/-- A label object in a remote issue record; the code reads only its
`"name"` field (`label["name"]` in `agent.py`). -/
structure Label where
  name : String
  deriving Repr, DecidableEq

/-- A raw remote issue record as returned by the forge API.  Fields the code
reads with `.get(key, default)` are `Option`s, mirroring that the key may be
absent from the JSON object. -/
structure RawIssue where
  number : Nat
  title : String
  body : Option String
  userLogin : String
  userType : String
  labels : Option (List Label)
  assignees : Option (List String)
  deriving Repr, DecidableEq

/-- `{label["name"] for label in issue.get("labels", [])}` from
`list_untriaged_issues`: the item's label-name set (as a list in reported
order). -/
def labelNames (issue : RawIssue) : List String :=
  (issue.labels.getD []).map Label.name

/-- `issue_labels & category_labels` from `list_untriaged_issues`: the
intersection of the item's label names with the fixed category registry. -/
def existingCategoryLabels (issue : RawIssue) : List String :=
  (labelNames issue).filter (fun n => CATEGORIES.contains n)

/-- The per-issue flags `list_untriaged_issues` attaches to each returned
issue. -/
structure ActionFlags where
  needs_category_label : Bool
  needs_owner : Bool
  existing_category_label : Option String
  deriving Repr, DecidableEq

/-- The flag computation performed in the body of the `for issue in issues`
loop of `list_untriaged_issues` (`agent.py` lines 109-126):
`needs_category_label = not has_category`, `needs_owner = not assignees`,
`existing_category_label = list(existing_category_labels)[0] if ... else
None`. -/
def classify (issue : RawIssue) : ActionFlags :=
  { needs_category_label := (existingCategoryLabels issue).isEmpty,
    needs_owner := (issue.assignees.getD []).isEmpty,
    existing_category_label := (existingCategoryLabels issue).head? }

/-- The search response consumed by `list_untriaged_issues`; the code reads
`response.get("items", [])`. -/
structure SearchResponse where
  items : Option (List RawIssue)
  deriving Repr, DecidableEq

/-- Result of `list_untriaged_issues`: a status string and the annotated
untriaged issues (the Python mutates each issue dict in place; here the
attached flags are paired with the issue). -/
structure TriageListResult where
  status : String
  issues : List (RawIssue × ActionFlags)
  deriving Repr, DecidableEq

/-- The accumulation loop of `list_untriaged_issues`: append each issue that
needs any action, and `break` once `len(untriaged_issues) >= issue_count`
(checked after the append). -/
def collectUntriaged (issue_count : Int) :
    List RawIssue → List (RawIssue × ActionFlags) → List (RawIssue × ActionFlags)
  | [], acc => acc
  | issue :: rest, acc =>
    let flags := classify issue
    if flags.needs_category_label || flags.needs_owner then
      let acc2 := acc ++ [(issue, flags)]
      if (acc2.length : Int) ≥ issue_count then acc2
      else collectUntriaged issue_count rest acc2
    else collectUntriaged issue_count rest acc

/-- `list_untriaged_issues` from `agent.py`, given the (already fetched)
search response: filters to issues needing action, bounded by
`issue_count`. -/
def list_untriaged_issues (issue_count : Int) (response : SearchResponse) :
    TriageListResult :=
  { status := "success",
    issues := collectUntriaged issue_count (response.items.getD []) [] }

/-- Result of `fetch_specific_issue_details` from
`src/agents/issue_triage_agent/main.py`: `None` when already triaged, else
the projected record with `body` defaulted to the empty string. -/
structure FetchedIssueDetails where
  number : Nat
  title : String
  body : String
  needs_category_label : Bool
  deriving Repr, DecidableEq

/-- `fetch_specific_issue_details` (`main.py` lines 46-71), applied to the
fetched issue record: recomputes `needs_category_label` from the label
intersection with `CATEGORIES` and returns `None` when a category label is
already present. -/
def fetch_specific_issue_details (issue_data : RawIssue) :
    Option FetchedIssueDetails :=
  let needs_category_label := (existingCategoryLabels issue_data).isEmpty
  if needs_category_label then
    some { number := issue_data.number,
           title := issue_data.title,
           body := issue_data.body.getD "",
           needs_category_label := needs_category_label }
  else none

/-- Outcome of one underlying HTTP attempt inside `get_request` /
`post_request` / `patch_request` (`src/agents/issue_triage_agent/utils.py`):
either a parsed-JSON value, a `requests.exceptions.RequestException`
(raised by transport failures and by `raise_for_status`), or some other
exception. Errors are identified by an abstract code. -/
inductive AttemptOutcome (α : Type) where
  | ok (v : α)
  | reqExn (e : Nat)
  | otherExn (e : Nat)
  deriving Repr, DecidableEq

/-- Observable result of a `tenacity`-wrapped request: the returned value or
the raised exception, together with how many attempts were made. -/
inductive RetryResult (α : Type) where
  | success (v : α) (attempts : Nat)
  | retryError (lastErr : Nat) (attempts : Nat)
  | raised (e : Nat) (attempts : Nat)
  deriving Repr, DecidableEq

/-- Number of attempts consumed by a request. -/
def RetryResult.attempts : RetryResult α → Nat
  | .success _ a => a
  | .retryError _ a => a
  | .raised _ a => a

/-- The JSON value produced by a request, when it succeeded. -/
def RetryResult.value : RetryResult α → Option α
  | .success v _ => some v
  | _ => none

/-- The `tenacity` retry driver configured by the decorator
`@retry(retry=retry_if_exception_type(RequestException),
stop=stop_after_attempt(3), wait=wait_fixed(2))` in `utils.py`:
run attempt `attempt`; return on success; re-raise a
non-`RequestException` immediately; on a `RequestException`, retry while
`remaining` retries are left, else stop with a retry error carrying the last
underlying exception. `outcomes n` is the outcome the environment gives to
attempt number `n`. -/
def tenacityRun (outcomes : Nat → AttemptOutcome α) :
    Nat → Nat → RetryResult α
  | attempt, 0 =>
    match outcomes attempt with
    | .ok v => .success v attempt
    | .otherExn e => .raised e attempt
    | .reqExn e => .retryError e attempt
  | attempt, r + 1 =>
    match outcomes attempt with
    | .ok v => .success v attempt
    | .otherExn e => .raised e attempt
    | .reqExn _ => tenacityRun outcomes (attempt + 1) r

/-- `get_request` from `utils.py`: first attempt is attempt 1, with 2
retries remaining (`stop_after_attempt(3)`). -/
def get_request (outcomes : Nat → AttemptOutcome α) : RetryResult α :=
  tenacityRun outcomes 1 2

/-- `post_request` from `utils.py`: identical retry policy. -/
def post_request (outcomes : Nat → AttemptOutcome α) : RetryResult α :=
  tenacityRun outcomes 1 2

/-- `patch_request` from `utils.py`: identical retry policy. -/
def patch_request (outcomes : Nat → AttemptOutcome α) : RetryResult α :=
  tenacityRun outcomes 1 2

/-- The outbound label mutation `post_request(label_url, label_payload)`
issued by `add_label_to_issue`. -/
structure LabelRequest where
  issue_number : Nat
  payload : List String
  deriving Repr, DecidableEq

/-- Return value of `add_label_to_issue` (`agent.py` lines 133-161), with
the HTTP mutation it issues (if any) made explicit. -/
inductive LabelResult where
  | error (message : String)
  | success (applied_label : String) (req : LabelRequest)
  deriving Repr, DecidableEq

/-- The remote mutations issued by a `add_label_to_issue` call. -/
def LabelResult.requests : LabelResult → List LabelRequest
  | .error _ => []
  | .success _ req => [req]

/-- `add_label_to_issue` from `agent.py`: rejects a label not in
`CATEGORY_TO_OWNER` before any HTTP call, else posts `[label]` to the
issue's labels endpoint. -/
def add_label_to_issue (issue_number : Nat) (label : String) : LabelResult :=
  if (CATEGORY_TO_OWNER.lookup label).isSome then
    .success label { issue_number := issue_number, payload := [label] }
  else
    .error ("Error: Label \x27" ++ label ++
      "\x27 is not an allowed category label. Will not apply.")

/-- The outbound assignee mutation `post_request(assignee_url,
assignee_payload)` issued by `add_owner_to_issue`. -/
structure AssigneeRequest where
  issue_number : Nat
  assignees : List String
  deriving Repr, DecidableEq

/-- Return value of `add_owner_to_issue` (`agent.py` lines 164-214),
one constructor per `return` statement of the source: `invalidLabel` is the
`error_response` for a label outside the registry, `noOwnerTeam` the warning
for a falsy mapped team, `noMembers` the warning for a missing/empty/
falsy-first-member roster entry, `success` the assignment with its HTTP
mutation. -/
inductive OwnerResult where
  | invalidLabel (label : String)
  | noOwnerTeam (label : String)
  | noMembers (team : String) (label : String)
  | success (assigned_owner : String) (req : AssigneeRequest)
  deriving Repr, DecidableEq

/-- The remote mutations issued by a `add_owner_to_issue` call. -/
def OwnerResult.requests : OwnerResult → List AssigneeRequest
  | .success _ req => [req]
  | _ => []

/-- Python truthiness test `not members or not members[0]` on
`TEAM_MEMBERS.get(team)`: falsy for `None`, the empty list, and a list whose
first member is the empty string. -/
def membersUsable : Option (List String) → Bool
  | none => false
  | some [] => false
  | some (m :: _) => !(m == "")

/-- `add_owner_to_issue` from `agent.py`, parameterised by the registry and
roster the module reads (`CATEGORY_TO_OWNER`, `TEAM_MEMBERS`): resolves the
owner as the first member of the team mapped to the label, with the source's
guard chain (`label not in CATEGORY_TO_OWNER`, `if not team`,
`if not members or not members[0]`). -/
def add_owner_to_issue (registry : List (String × String))
    (roster : List (String × List String))
    (issue_number : Nat) (label : String) : OwnerResult :=
  match registry.lookup label with
  | none => .invalidLabel label
  | some team =>
    if team == "" then .noOwnerTeam label
    else
      let members := roster.lookup team
      if membersUsable members then
        match members with
        | some (owner :: _) =>
          .success owner { issue_number := issue_number,
                           assignees := [owner] }
        | _ => .noMembers team label
      else .noMembers team label

end IssueTriage

namespace DiscussionModeration

/-- The `discussions` payload of one GraphQL page in
`list_all_open_discussions` (`src/agents/discussion_moderation_agent/main.py`):
node numbers and `pageInfo`, each read with `.get(..., default)`. -/
structure GqlPage where
  hasErrors : Bool
  nodes : Option (List Nat)
  hasNextPage : Option Bool
  deriving Repr, DecidableEq

/-- Outcome of one `run_graphql_query` call: a response, or a raised
`requests.exceptions.RequestException`. -/
inductive PageResult where
  | exn
  | ok (page : GqlPage)
  deriving Repr, DecidableEq

/-- The `while has_next_page` loop of `list_all_open_discussions`:
`responses` is the sequence of outcomes the remote hands to successive
queries; on a raised exception or a response with `"errors"` the function
returns `None`, discarding `acc`; otherwise it extends `acc` with the page's
node numbers and continues while `hasNextPage` (defaulted to `False`). -/
def discussionsLoop : List PageResult → List Nat → Option (List Nat)
  | [], _ => none
  | PageResult.exn :: _, _ => none
  | PageResult.ok page :: rest, acc =>
    if page.hasErrors then none
    else
      let acc2 := acc ++ page.nodes.getD []
      if page.hasNextPage.getD false then discussionsLoop rest acc2
      else some acc2

/-- `list_all_open_discussions` from `main.py`, starting from an empty
accumulator. -/
def list_all_open_discussions (responses : List PageResult) :
    Option (List Nat) :=
  discussionsLoop responses []

/-- A well-formed multi-page remote listing: each page reports its node
numbers, `hasNextPage = True` on every page but the last, and no errors. -/
def pagesToResponses : List (List Nat) → List PageResult
  | [] => []
  | [ns] => [PageResult.ok { hasErrors := false, nodes := some ns,
                             hasNextPage := some false }]
  | ns :: rest =>
    PageResult.ok { hasErrors := false, nodes := some ns,
                    hasNextPage := some true } :: pagesToResponses rest

/-- A response that lets the loop continue: a healthy page reporting a next
page. -/
def isContinuingOk : PageResult → Bool
  | PageResult.exn => false
  | PageResult.ok page => !page.hasErrors && page.hasNextPage.getD false

/-- A response on which enumeration fails: a raised request exception, or a
response carrying GraphQL errors. -/
def isFailure : PageResult → Bool
  | PageResult.exn => true
  | PageResult.ok page => page.hasErrors

end DiscussionModeration

namespace IssueTriage

/-- A label name is in the computed intersection exactly when it is both one
of the item's label names and a registered category. -/
theorem mem_existingCategoryLabels {issue : RawIssue} {l : String} :
    l ∈ existingCategoryLabels issue ↔
      l ∈ labelNames issue ∧ l ∈ CATEGORIES := by
  simp [existingCategoryLabels, List.mem_filter]

/-- C1: for every remote item record, `needs_category_label` is true exactly
when the intersection of the item's label names with the category registry
is empty, `needs_owner` is true exactly when the assignee list is empty,
and a non-empty intersection forces `needs_category_label = false` with
`existing_category_label` a member of the intersection. -/
theorem classifier_flags_spec (issue : RawIssue) :
    ((classify issue).needs_category_label = true ↔
      ¬ ∃ l, l ∈ labelNames issue ∧ l ∈ CATEGORIES)
    ∧ ((classify issue).needs_owner = true ↔ issue.assignees.getD [] = [])
    ∧ ((∃ l, l ∈ labelNames issue ∧ l ∈ CATEGORIES) →
        (classify issue).needs_category_label = false
        ∧ ∃ l, (classify issue).existing_category_label = some l
            ∧ l ∈ labelNames issue ∧ l ∈ CATEGORIES) := by
  refine ⟨?_, ?_, ?_⟩
  · simp only [classify, List.isEmpty_iff, List.eq_nil_iff_forall_not_mem]
    constructor
    · rintro h ⟨l, hl⟩
      exact h l (mem_existingCategoryLabels.mpr hl)
    · intro h l hl
      exact h ⟨l, mem_existingCategoryLabels.mp hl⟩
  · simp [classify, List.isEmpty_iff]
  · rintro ⟨l, hl⟩
    have hmem : l ∈ existingCategoryLabels issue :=
      mem_existingCategoryLabels.mpr hl
    have hne : existingCategoryLabels issue ≠ [] := by
      intro h
      rw [h] at hmem
      exact absurd hmem (List.not_mem_nil l)
    constructor
    · simp [classify, List.isEmpty_iff, hne]
    · obtain ⟨x, xs, hx⟩ := List.exists_cons_of_ne_nil hne
      have hxmem : x ∈ existingCategoryLabels issue := by
        rw [hx]; exact List.mem_cons_self x xs
      refine ⟨x, ?_, mem_existingCategoryLabels.mp hxmem⟩
      simp [classify, hx]

/-- A concrete issue carrying the known category labels `sdk` and
`documentation`, authored by a human user. -/
def sampleLabeledIssue : RawIssue :=
  { number := 7, title := "SDK docs are stale", body := some "details",
    userLogin := "alice", userType := "User",
    labels := some [{ name := "sdk" }, { name := "documentation" }],
    assignees := some [] }

/-- Witness for C1 at a concrete issue whose labels intersect the
registry. -/
theorem classifier_flags_spec_witness :
    (classify sampleLabeledIssue).needs_category_label = false
    ∧ ∃ l, (classify sampleLabeledIssue).existing_category_label = some l
        ∧ l ∈ labelNames sampleLabeledIssue ∧ l ∈ CATEGORIES :=
  (classifier_flags_spec sampleLabeledIssue).2.2
    ⟨"sdk", by decide, by decide⟩

/-- C6: classification is a pure, deterministic function of the item's
label names and assignees (in particular it never consults I/O or any other
field), and the single chosen `existing_category_label` is the fixed head
of the computed intersection. -/
theorem classify_deterministic (i1 i2 : RawIssue)
    (hl : labelNames i1 = labelNames i2)
    (ha : i1.assignees.getD [] = i2.assignees.getD []) :
    classify i1 = classify i2
    ∧ (classify i1).existing_category_label =
        (existingCategoryLabels i1).head? := by
  constructor
  · unfold classify existingCategoryLabels
    rw [hl, ha]
  · rfl

/-- The same record as `sampleLabeledIssue` but with a different author and
title: classification may not distinguish them. -/
def sampleLabeledIssueAlt : RawIssue :=
  { sampleLabeledIssue with
    number := 8
    title := "Different title"
    userLogin := "bob" }

/-- Witness for C6 at two concrete records agreeing on labels and
assignees. -/
theorem classify_deterministic_witness :
    classify sampleLabeledIssue = classify sampleLabeledIssueAlt
    ∧ (classify sampleLabeledIssue).existing_category_label =
        (existingCategoryLabels sampleLabeledIssue).head? :=
  classify_deterministic sampleLabeledIssue sampleLabeledIssueAlt rfl rfl

/-- The attempt number of a finished retry run never exceeds the starting
attempt number plus the remaining retries. -/
theorem tenacityRun_attempts_le {α : Type} (outcomes : Nat → AttemptOutcome α) :
    ∀ (remaining attempt : Nat),
      (tenacityRun outcomes attempt remaining).attempts ≤ attempt + remaining := by
  intro remaining
  induction remaining with
  | zero =>
    intro attempt
    unfold tenacityRun
    cases outcomes attempt <;> simp [RetryResult.attempts]
  | succ r ih =>
    intro attempt
    unfold tenacityRun
    cases outcomes attempt with
    | ok v => simp [RetryResult.attempts]
    | reqExn e =>
      have := ih (attempt + 1)
      simpa [Nat.add_assoc, Nat.add_comm 1 r] using this
    | otherExn e => simp [RetryResult.attempts]

/-- C2: the resilient wrapper makes at most 3 total attempts, fails at once
(attempt 1) on a non-transient exception without consuming retries, returns
on a second-attempt success the same parsed value as an immediate success,
and after three transient failures fails carrying the last underlying
error. -/
theorem resilient_retry_spec {α : Type} (outcomes : Nat → AttemptOutcome α)
    (v : α) (e1 e2 e3 : Nat) :
    (get_request outcomes).attempts ≤ 3
    ∧ (outcomes 1 = .otherExn e1 → get_request outcomes = .raised e1 1)
    ∧ (outcomes 1 = .reqExn e1 → outcomes 2 = .ok v →
        get_request outcomes = .success v 2
        ∧ ∀ outcomes2 : Nat → AttemptOutcome α, outcomes2 1 = .ok v →
            (get_request outcomes).value = (get_request outcomes2).value)
    ∧ (outcomes 1 = .reqExn e1 → outcomes 2 = .reqExn e2 →
        outcomes 3 = .reqExn e3 →
        get_request outcomes = .retryError e3 3) := by
  refine ⟨tenacityRun_attempts_le outcomes 2 1, ?_, ?_, ?_⟩
  · intro h1
    simp [get_request, tenacityRun, h1]
  · intro h1 h2
    have hres : get_request outcomes = .success v 2 := by
      simp [get_request, tenacityRun, h1, h2]
    refine ⟨hres, ?_⟩
    intro outcomes2 h2'
    rw [hres]
    simp [get_request, tenacityRun, h2', RetryResult.value]
  · intro h1 h2 h3
    simp [get_request, tenacityRun, h1, h2, h3]

/-- A request environment that fails transiently once and then succeeds. -/
def flakyOutcomes : Nat → AttemptOutcome Nat
  | 1 => .reqExn 7
  | _ => .ok 42

/-- A request environment that always fails transiently. -/
def deadOutcomes : Nat → AttemptOutcome Nat
  | n => .reqExn n

/-- Witness for C2: the flaky environment succeeds on attempt 2 with the
same value as an immediate success, and the dead environment exhausts 3
attempts carrying the last error. -/
theorem resilient_retry_spec_witness :
    (get_request flakyOutcomes = .success 42 2
      ∧ ∀ outcomes2 : Nat → AttemptOutcome Nat, outcomes2 1 = .ok 42 →
          (get_request flakyOutcomes).value = (get_request outcomes2).value)
    ∧ get_request deadOutcomes = .retryError 3 3 :=
  ⟨(resilient_retry_spec flakyOutcomes 42 7 0 0).2.2.1 rfl rfl,
   (resilient_retry_spec deadOutcomes 42 1 2 3).2.2.2 rfl rfl rfl⟩

/-- C10: a label outside the fixed registry is rejected with an error
message naming that label and no HTTP mutation is issued; any issued label
mutation comes from a registered label and posts exactly `[label]`. -/
theorem add_label_guard (n : Nat) (label : String) :
    (CATEGORY_TO_OWNER.lookup label = none →
      add_label_to_issue n label =
        .error ("Error: Label \x27" ++ label ++
          "\x27 is not an allowed category label. Will not apply.")
      ∧ (add_label_to_issue n label).requests = [])
    ∧ (∀ req ∈ (add_label_to_issue n label).requests,
        (CATEGORY_TO_OWNER.lookup label).isSome = true
        ∧ req = { issue_number := n, payload := [label] }) := by
  constructor
  · intro h
    simp [add_label_to_issue, h, LabelResult.requests]
  · intro req hreq
    by_cases h : (CATEGORY_TO_OWNER.lookup label).isSome
    · simp [add_label_to_issue, h, LabelResult.requests] at hreq
      exact ⟨h, hreq⟩
    · simp [add_label_to_issue, h, LabelResult.requests] at hreq

/-- Witness for C10 at a concrete unregistered label. -/
theorem add_label_guard_witness :
    add_label_to_issue 5 "not-a-category" =
      LabelResult.error ("Error: Label \x27" ++ "not-a-category" ++
        "\x27 is not an allowed category label. Will not apply.")
    ∧ (add_label_to_issue 5 "not-a-category").requests = [] :=
  (add_label_guard 5 "not-a-category").1 (by decide)

/-- C5: owner resolution returns the first member of the roster of the team
mapped to the label; an unregistered label fails with the invalid-label
error, an empty roster entry fails with the no-members warning, and neither
failure issues an assignee mutation. -/
theorem resolveOwner_spec (registry : List (String × String))
    (roster : List (String × List String)) (n : Nat)
    (label team owner : String) (rest : List String) :
    (registry.lookup label = some team → team ≠ "" →
      roster.lookup team = some (owner :: rest) → owner ≠ "" →
      add_owner_to_issue registry roster n label =
        .success owner { issue_number := n, assignees := [owner] })
    ∧ (registry.lookup label = none →
        add_owner_to_issue registry roster n label = .invalidLabel label
        ∧ (add_owner_to_issue registry roster n label).requests = [])
    ∧ (registry.lookup label = some team → team ≠ "" →
        roster.lookup team = some [] →
        add_owner_to_issue registry roster n label = .noMembers team label
        ∧ (add_owner_to_issue registry roster n label).requests = []) := by
  refine ⟨?_, ?_, ?_⟩
  · intro hreg hteam hros howner
    simp [add_owner_to_issue, hreg, hteam, hros, membersUsable, howner]
  · intro hreg
    simp [add_owner_to_issue, hreg, OwnerResult.requests]
  · intro hreg hteam hros
    simp [add_owner_to_issue, hreg, hteam, hros, membersUsable,
      OwnerResult.requests]

/-- The registry of the spec's owner-resolution examples. -/
def specRegistry : List (String × String) :=
  [("core-protocol", "technical-committee"),
   ("governance", "governance-committee")]

/-- The roster of the spec's owner-resolution examples. -/
def specRoster : List (String × List String) :=
  [("technical-committee", ["alice", "bob"]),
   ("governance-committee", [])]

/-- Witness for C5 at the spec's three examples: first-member resolution,
unknown category, and empty team. -/
theorem resolveOwner_spec_witness :
    add_owner_to_issue specRegistry specRoster 12 "core-protocol" =
      OwnerResult.success "alice" { issue_number := 12, assignees := ["alice"] }
    ∧ (add_owner_to_issue specRegistry specRoster 12 "unknown-cat" =
        OwnerResult.invalidLabel "unknown-cat"
        ∧ (add_owner_to_issue specRegistry specRoster 12 "unknown-cat").requests = [])
    ∧ (add_owner_to_issue specRegistry specRoster 12 "governance" =
        OwnerResult.noMembers "governance-committee" "governance"
        ∧ (add_owner_to_issue specRegistry specRoster 12 "governance").requests = []) :=
  ⟨(resolveOwner_spec specRegistry specRoster 12 "core-protocol"
      "technical-committee" "alice" ["bob"]).1 (by decide) (by decide)
      (by decide) (by decide),
   (resolveOwner_spec specRegistry specRoster 12 "unknown-cat"
      "" "" []).2.1 (by decide),
   (resolveOwner_spec specRegistry specRoster 12 "governance"
      "governance-committee" "" []).2.2 (by decide) (by decide) (by decide)⟩

/-- C9: records with missing `labels`, `assignees`, `items` or `body`
fields are classified exactly as records carrying the empty collection
(empty string for `body`); every such operation is total. -/
theorem missing_fields_default_empty (issue : RawIssue) (count : Int) :
    classify { issue with labels := none }
        = classify { issue with labels := some [] }
    ∧ classify { issue with assignees := none }
        = classify { issue with assignees := some [] }
    ∧ list_untriaged_issues count { items := none }
        = list_untriaged_issues count { items := some [] }
    ∧ fetch_specific_issue_details { issue with body := none }
        = fetch_specific_issue_details { issue with body := some "" } :=
  ⟨rfl, rfl, rfl, rfl⟩

/-- An open issue with no labels and no assignees, authored by a human.  It
needs both a category label and an owner. -/
def untriagedSample : RawIssue :=
  { number := 1, title := "Needs triage", body := some "steps",
    userLogin := "carol", userType := "User",
    labels := some [], assignees := some [] }

/-- C7 counterexample: with a requested maximum of 0 items, the listing
still returns 1 item, because the bound is checked only after an append. -/
theorem issue_count_zero_violation :
    (list_untriaged_issues 0 { items := some [untriagedSample] }).issues ≠ []
    ∧ (list_untriaged_issues 0
        { items := some [untriagedSample] }).issues.length = 1 := by
  constructor
  · decide
  · rfl

/-- The loop never grows past a positive bound: starting strictly below
`count`, the accumulated list ends at length at most `count`. -/
theorem collectUntriaged_le :
    ∀ (issues : List RawIssue) (acc : List (RawIssue × ActionFlags))
      (count : Int), (acc.length : Int) < count →
      ((collectUntriaged count issues acc).length : Int) ≤ count := by
  intro issues
  induction issues with
  | nil =>
    intro acc count h
    simpa [collectUntriaged] using le_of_lt h
  | cons issue rest ih =>
    intro acc count h
    by_cases hb : ((classify issue).needs_category_label
        || (classify issue).needs_owner) = true
    · by_cases hstop :
          (((acc ++ [(issue, classify issue)]).length : Int) ≥ count)
      · have hlen : ((acc ++ [(issue, classify issue)]).length : Int)
            = (acc.length : Int) + 1 := by simp
        simp only [collectUntriaged, hb, if_true, hstop]
        omega
      · have hlt : (((acc ++ [(issue, classify issue)]).length : Int) < count) := by
          omega
        simp only [collectUntriaged, hb, if_true, hstop, if_false]
        exact ih _ count hlt
    · simp only [collectUntriaged, hb]
      exact ih acc count h

/-- When the bound is already at most one past the accumulator, the loop
adds at most one more item before stopping. -/
theorem collectUntriaged_le_one :
    ∀ (issues : List RawIssue) (acc : List (RawIssue × ActionFlags))
      (count : Int), count ≤ (acc.length : Int) + 1 →
      ((collectUntriaged count issues acc).length : Int)
        ≤ (acc.length : Int) + 1 := by
  intro issues
  induction issues with
  | nil =>
    intro acc count _
    simp [collectUntriaged]
  | cons issue rest ih =>
    intro acc count h
    by_cases hb : ((classify issue).needs_category_label
        || (classify issue).needs_owner) = true
    · have hstop : (((acc ++ [(issue, classify issue)]).length : Int) ≥ count) := by
        simp only [List.length_append, List.length_cons, List.length_nil]
        omega
      simp only [collectUntriaged, hb, if_true, hstop]
      simp
    · simp only [collectUntriaged, hb]
      exact ih acc count h

/-- C7 amended: for every positive maximum item count, enumeration stops
once the bound is reached and returns no more than that many items; for a
zero or negative count the bound check fires after the first append, so at
most one item is returned. -/
theorem issue_count_bound (count : Int) (response : SearchResponse) :
    (1 ≤ count →
      ((list_untriaged_issues count response).issues.length : Int) ≤ count)
    ∧ (count ≤ 0 →
        (list_untriaged_issues count response).issues.length ≤ 1) := by
  constructor
  · intro h
    exact collectUntriaged_le (response.items.getD []) [] count (by simpa using h)
  · intro h
    have hz := collectUntriaged_le_one (response.items.getD []) [] count
      (by simp; omega)
    simp only [List.length_nil, Int.natCast_zero, zero_add] at hz
    exact_mod_cast (by simpa [list_untriaged_issues] using hz :
      ((list_untriaged_issues count response).issues.length : Int) ≤ 1)

/-- Witness for C7 at a concrete 5-issue listing and bound 2, and the same
listing with bound -4. -/
theorem issue_count_bound_witness :
    ((list_untriaged_issues 2
        { items := some [untriagedSample, untriagedSample, untriagedSample,
                         untriagedSample, untriagedSample] }).issues.length : Int) ≤ 2
    ∧ (list_untriaged_issues (-4)
        { items := some [untriagedSample, untriagedSample, untriagedSample,
                         untriagedSample, untriagedSample] }).issues.length ≤ 1 :=
  ⟨(issue_count_bound 2 { items := some [untriagedSample, untriagedSample,
      untriagedSample, untriagedSample, untriagedSample] }).1 (by decide),
   (issue_count_bound (-4) { items := some [untriagedSample, untriagedSample,
      untriagedSample, untriagedSample, untriagedSample] }).2 (by decide)⟩

/-- An open dependency-update issue authored by the automated identity
`renovate[bot]`, with no labels and no assignees. -/
def renovateIssue : RawIssue :=
  { number := 42, title := "chore(deps): update dependency", body := some "",
    userLogin := "renovate[bot]", userType := "Bot",
    labels := some [], assignees := some [] }

/-- C3 counterexample: `list_untriaged_issues` performs no author-based
pre-filter, so the `renovate[bot]`-authored item is in the candidate set it
returns (the set handed to the Planner). -/
theorem bot_item_in_candidates :
    (list_untriaged_issues 3 { items := some [renovateIssue] }).issues
      = [(renovateIssue, classify renovateIssue)] := by
  rfl

/-- C3 amended: the candidate-listing code never consults authorship —
classification is unchanged under any author, and a bot-authored item that
needs action is returned in the candidate set; skipping bot-authored items
is delegated to the Planner through its natural-language instructions. -/
theorem bot_items_reach_planner (issue : RawIssue) (login ty : String)
    (count : Int)
    (hneeds : ((classify issue).needs_category_label
      || (classify issue).needs_owner) = true) :
    classify { issue with userLogin := login, userType := ty } = classify issue
    ∧ (list_untriaged_issues count { items := some [issue] }).issues
        = [(issue, classify issue)] := by
  refine ⟨rfl, ?_⟩
  simp only [list_untriaged_issues, collectUntriaged, hneeds, if_true,
    Option.getD_some, List.nil_append]
  split <;> simp [collectUntriaged]

/-- Witness for C3's amended statement at the `renovate[bot]` item. -/
theorem bot_items_reach_planner_witness :
    classify { renovateIssue with userLogin := "dependabot[bot]", userType := "Bot" }
        = classify renovateIssue
    ∧ (list_untriaged_issues 3 { items := some [renovateIssue] }).issues
        = [(renovateIssue, classify renovateIssue)] :=
  bot_items_reach_planner renovateIssue "dependabot[bot]" "Bot" 3 (by decide)

end IssueTriage

namespace DiscussionModeration

/-- Walking a well-formed listing from any accumulator appends exactly the
concatenation of the pages. -/
theorem discussionsLoop_pagesToResponses :
    ∀ (pages : List (List Nat)) (acc : List Nat), pages ≠ [] →
      discussionsLoop (pagesToResponses pages) acc = some (acc ++ pages.flatten) := by
  intro pages
  induction pages with
  | nil => intro acc h; exact absurd rfl h
  | cons ns rest ih =>
    intro acc _
    cases rest with
    | nil => simp [pagesToResponses, discussionsLoop]
    | cons m ms =>
      have step := ih (acc ++ ns) (by simp)
      simp [pagesToResponses, discussionsLoop, step, List.append_assoc]

/-- C4: on every finite non-empty well-formed multi-page listing, the
paginator follows the continuation until the remote reports no further
pages and returns exactly the concatenation of every page's item
identifiers, in remote-reported order (hence with no duplicates and no
omissions whenever the remote pages have none). -/
theorem paginator_returns_concatenation (pages : List (List Nat))
    (h : pages ≠ []) :
    list_all_open_discussions (pagesToResponses pages) = some pages.flatten :=
  by simpa using discussionsLoop_pagesToResponses pages [] h

/-- A 3-page listing with pages of 100, 100 and 37 identifiers. -/
def threePages : List (List Nat) :=
  [List.range 100, (List.range 100).map (fun n => n + 100),
   (List.range 37).map (fun n => n + 200)]

set_option maxRecDepth 4096 in
/-- Witness for C4: the 100/100/37 listing yields exactly the 237
identifiers 0..236 in order. -/
theorem paginator_returns_concatenation_witness :
    list_all_open_discussions (pagesToResponses threePages)
      = some (List.range 237)
    ∧ (List.range 237).length = 237 :=
  ⟨(paginator_returns_concatenation threePages (by decide)).trans (by decide),
   by simp⟩

/-- If the loop reaches a failing response, the whole enumeration returns
`None`, whatever was accumulated. -/
theorem discussionsLoop_failure :
    ∀ (pre : List PageResult) (fail : PageResult) (rest : List PageResult)
      (acc : List Nat),
      (∀ p ∈ pre, isContinuingOk p = true) → isFailure fail = true →
      discussionsLoop (pre ++ fail :: rest) acc = none := by
  intro pre
  induction pre with
  | nil =>
    intro fail rest acc _ hfail
    cases fail with
    | exn => simp [discussionsLoop]
    | ok page =>
      have hpage : page.hasErrors = true := hfail
      simp [discussionsLoop, hpage]
  | cons p ps ih =>
    intro fail rest acc hpre hfail
    have hp := hpre p (List.mem_cons_self p ps)
    cases p with
    | exn => simp [isContinuingOk] at hp
    | ok page =>
      simp only [isContinuingOk, Bool.and_eq_true, Bool.not_eq_true'] at hp
      simp only [List.cons_append, discussionsLoop, hp.1, hp.2,
        Bool.false_eq_true, if_false, if_true]
      exact ih fail rest _
        (fun q hq => hpre q (List.mem_cons_of_mem (PageResult.ok page) hq)) hfail

/-- C8: a page-fetch failure (raised request exception or a response
carrying errors) reached after any run of healthy continuing pages makes the
whole enumeration return `None`: every partial result from earlier pages is
discarded. -/
theorem enumeration_all_or_nothing (pre : List PageResult) (fail : PageResult)
    (rest : List PageResult)
    (hpre : ∀ p ∈ pre, isContinuingOk p = true)
    (hfail : isFailure fail = true) :
    list_all_open_discussions (pre ++ fail :: rest) = none :=
  discussionsLoop_failure pre fail rest [] hpre hfail

/-- Witness for C8: one healthy page followed by a raised exception yields
`None`, discarding the first page's identifiers. -/
theorem enumeration_all_or_nothing_witness :
    list_all_open_discussions
      [PageResult.ok { hasErrors := false, nodes := some [11, 12],
                       hasNextPage := some true },
       PageResult.exn] = none :=
  enumeration_all_or_nothing
    [PageResult.ok { hasErrors := false, nodes := some [11, 12],
                     hasNextPage := some true }]
    PageResult.exn [] (by decide) rfl

end DiscussionModeration
